import Mathlib

/-!
# PrivaNote — verification of the analysis, storage and transcription layers

Shallow embedding of the Python sources of the PrivaNote meeting assistant:

* `src/utils/ai_analysis.py`   — `AIAnalysisService` (analysis routing and the
  rule-based fallback analyzer);
* `src/utils/storage.py`       — `StorageService` (session-state meeting store);
* `src/utils/transcription.py` — `TranscriptionService.change_model_size`.

Python strings are modelled as `List Char` (`PyStr`); the Python string
operations the sources use (`split`, `strip`, `lower`, substring `in`,
`" ".join`) are re-implemented structurally below so that every concrete
evaluation goes through the kernel.  `Char.toLower` models Python `str.lower`
(the sources only ever lower ASCII keyword/query text).  A Python dict field
that may be absent is an `Option`; `none` models the key being absent.
-/

namespace PrivaNote

/-- A Python string, modelled as its list of characters. -/
abbrev PyStr := List Char

/-- Character list of a Lean string literal (used for concrete inputs). -/
def pys (s : String) : PyStr := s.toList

/-- Does `pre` occur at the head of `l`?  (Helper for the Python `in` test.) -/
def startsWith : PyStr → PyStr → Bool
  | [], _ => true
  | _ :: _, [] => false
  | a :: as, b :: bs => a == b && startsWith as bs

/-- Python `needle in hay`: substring containment. -/
def pyIn (needle hay : PyStr) : Bool :=
  match hay with
  | [] => needle.isEmpty
  | _ :: rest => startsWith needle hay || pyIn needle rest

/-- Python `s.lower()` (ASCII case folding, all the sources need). -/
def pyLower (s : PyStr) : PyStr := s.map Char.toLower

/-- The whitespace class of Python `str.strip()` / `str.split()`:
    space and the control characters `\t \n \v \f \r` (codes 9–13). -/
def isPySpace (c : Char) : Bool := c.toNat == 32 || (9 ≤ c.toNat && c.toNat ≤ 13)

/-- Python `s.strip()`. -/
def pyStrip (s : PyStr) : PyStr :=
  ((s.dropWhile isPySpace).reverse.dropWhile isPySpace).reverse

/-- Python `s.split(sep)` for a one-character separator: keeps empty pieces,
    e.g. `"a.b.".split('.') == ["a", "b", ""]`. -/
def pySplitOn (sep : Char) : PyStr → List PyStr
  | [] => [[]]
  | c :: cs =>
    if c == sep then [] :: pySplitOn sep cs
    else
      match pySplitOn sep cs with
      | s :: rest => (c :: s) :: rest
      | [] => [[c]]

/-- Python `s.split()` (no argument): whitespace-delimited words, no empties. -/
def pyWords : PyStr → List PyStr
  | [] => []
  | c :: cs =>
    if isPySpace c then pyWords cs
    else
      match pyWords cs with
      | [] => [[c]]
      | w :: ws =>
        match cs with
        | [] => [[c]]
        | c' :: _ => if isPySpace c' then [c] :: w :: ws else (c :: w) :: ws

/-- Python `sep.join(xs)`. -/
def pyJoin (sep : PyStr) : List PyStr → PyStr
  | [] => []
  | [x] => x
  | x :: y :: rest => x ++ sep ++ pyJoin sep (y :: rest)

/-- Decimal rendering of a natural number, as a `PyStr` (Python `str(n)`
    inside an f-string). -/
def natStr (n : Nat) : PyStr := (Nat.repr n).toList

end PrivaNote

namespace PrivaNote.AIAnalysis

open PrivaNote

/-- The Python dict returned by every analysis path of `AIAnalysisService`
    (`src/utils/ai_analysis.py`).  `provider` is an `Option` because
    `_fallback_analysis` returns a dict *without* a `'provider'` key, while the
    three `_analyze_with_*` wrappers put one in.  Confidence values are exact
    rationals. -/
structure AnalysisResult where
  summary : PyStr
  action_items : List PyStr
  key_decisions : List PyStr
  topics_discussed : List PyStr
  participants : List PyStr
  next_steps : List PyStr
  ai_confidence : ℚ
  provider : Option PyStr
  deriving Repr, DecidableEq

/-- `action_keywords` of `_fallback_analysis` (ai_analysis.py line 533). -/
def action_keywords : List PyStr :=
  [pys "todo", pys "action", pys "task", pys "will do", pys "should",
   pys "need to", pys "follow up"]

/-- `decision_keywords` of `_fallback_analysis` (ai_analysis.py line 540). -/
def decision_keywords : List PyStr :=
  [pys "decided", pys "agreed", pys "conclusion", pys "resolved",
   pys "determined"]

/-- `any(keyword in sentence.lower() for keyword in kws)`. -/
def matchesAnyKeyword (kws : List PyStr) (sentence : PyStr) : Bool :=
  kws.any (fun kw => pyIn kw (pyLower sentence))

/-- The summary string `_fallback_analysis` builds: a word-count statement,
    plus first and second-to-last `'.'`-segment when there are more than two
    segments (ai_analysis.py lines 523–530). -/
def fallbackSummary (t : PyStr) : PyStr :=
  let word_count := (pyWords (pyLower t)).length
  let sentences := pySplitOn '.' t
  let base := pys "Meeting transcript contains " ++ natStr word_count ++ pys " words. "
  if sentences.length > 2 then
    base ++ pyStrip (sentences.headD []) ++ pys ". "
         ++ pyStrip (sentences.getD (sentences.length - 2) []) ++ pys "."
  else base

/-- `AIAnalysisService._fallback_analysis` (ai_analysis.py lines 519–554).
    Keyword detection walks the `'.'`-split segments in document order,
    appends each matching segment stripped, and slices to the first 5; the
    returned dict has a fixed `ai_confidence` of 0.3 and *no* `'provider'`
    key. -/
def fallback_analysis (t : PyStr) : AnalysisResult :=
  let sentences := pySplitOn '.' t
  { summary := fallbackSummary t
    action_items :=
      (((sentences.filter (matchesAnyKeyword action_keywords)).map pyStrip).take 5)
    key_decisions :=
      (((sentences.filter (matchesAnyKeyword decision_keywords)).map pyStrip).take 5)
    topics_discussed := []
    participants := []
    next_steps := []
    ai_confidence := 3/10
    provider := none }

end PrivaNote.AIAnalysis

namespace PrivaNote.AIAnalysis

open PrivaNote

/-- The parsed-JSON dict a backend call yields, restricted to the keys the
    `_analyze_with_*` mappers read via `.get`.  `none` = key absent.  (Typed
    view of the dict: the mappers only ever read these seven keys.) -/
structure ParsedDict where
  summary : Option PyStr := none
  action_items : Option (List PyStr) := none
  key_decisions : Option (List PyStr) := none
  topics_discussed : Option (List PyStr) := none
  participants : Option (List PyStr) := none
  next_steps : Option (List PyStr) := none
  confidence : Option ℚ := none
  deriving Repr, DecidableEq

/-- How one backend chat call turns out, abstracting the network and the JSON
    parser: the HTTP/client call raises; the response content is falsy
    (`return {}`); `json.loads` fails (`JSONDecodeError`); or a dict is
    successfully parsed. -/
inductive CallOutcome where
  | apiError
  | emptyContent
  | parseError
  | parsed (d : ParsedDict)
  deriving Repr, DecidableEq

/-- The dict returned by `_fallback_analysis`, as seen through the seven keys a
    mapper reads.  Crucial detail: that dict stores its confidence under the
    key `'ai_confidence'`, so its `'confidence'` key is absent. -/
def dictOfFallback (r : AnalysisResult) : ParsedDict :=
  { summary := some r.summary
    action_items := some r.action_items
    key_decisions := some r.key_decisions
    topics_discussed := some r.topics_discussed
    participants := some r.participants
    next_steps := some r.next_steps
    confidence := none }

/-- `AIAnalysisService._generate_openai_analysis` (ai_analysis.py 307–364).
    On a missing client, an API error, or a JSON parse failure it *returns the
    fallback-analysis dict* (it does not re-raise); on falsy content it
    returns `{}`. -/
def generate_openai_analysis (clientPresent : Bool) (o : CallOutcome)
    (t : PyStr) : ParsedDict :=
  if !clientPresent then dictOfFallback (fallback_analysis t)
  else
    match o with
    | .parsed d => d
    | .emptyContent => {}
    | .parseError => dictOfFallback (fallback_analysis t)
    | .apiError => dictOfFallback (fallback_analysis t)

/-- `AIAnalysisService._generate_ollama_analysis` (ai_analysis.py 245–305);
    same failure envelope as the OpenAI variant (the regex `{.*}` extraction
    step is folded into the `CallOutcome`), without a client-presence guard. -/
def generate_ollama_analysis (o : CallOutcome) (t : PyStr) : ParsedDict :=
  match o with
  | .parsed d => d
  | .emptyContent => {}
  | .parseError => dictOfFallback (fallback_analysis t)
  | .apiError => dictOfFallback (fallback_analysis t)

/-- `AIAnalysisService._generate_lm_studio_analysis` (ai_analysis.py 366–442);
    same envelope as the OpenAI variant (the model-list probe only picks the
    model id sent on the wire, which never reaches the returned dict). -/
def generate_lm_studio_analysis (clientPresent : Bool) (o : CallOutcome)
    (t : PyStr) : ParsedDict :=
  if !clientPresent then dictOfFallback (fallback_analysis t)
  else
    match o with
    | .parsed d => d
    | .emptyContent => {}
    | .parseError => dictOfFallback (fallback_analysis t)
    | .apiError => dictOfFallback (fallback_analysis t)

/-- `AIAnalysisService._analyze_with_openai` (ai_analysis.py 191–207): maps the
    generated dict onto the result dict with `.get` defaults, confidence
    default 0.85, and provider label `'OpenAI'`.  (Its own `except` branch is
    unreachable: `_generate_openai_analysis` already catches every failure.) -/
def analyze_with_openai (clientPresent : Bool) (o : CallOutcome)
    (t : PyStr) : AnalysisResult :=
  let d := generate_openai_analysis clientPresent o t
  { summary := d.summary.getD []
    action_items := d.action_items.getD []
    key_decisions := d.key_decisions.getD []
    topics_discussed := d.topics_discussed.getD []
    participants := d.participants.getD []
    next_steps := d.next_steps.getD []
    ai_confidence := d.confidence.getD (85/100)
    provider := some (pys "OpenAI") }

/-- `AIAnalysisService._analyze_with_ollama` (ai_analysis.py 209–225):
    confidence default 0.75, provider label `'Local {model_name}'`. -/
def analyze_with_ollama (o : CallOutcome) (model_name t : PyStr) :
    AnalysisResult :=
  let d := generate_ollama_analysis o t
  { summary := d.summary.getD []
    action_items := d.action_items.getD []
    key_decisions := d.key_decisions.getD []
    topics_discussed := d.topics_discussed.getD []
    participants := d.participants.getD []
    next_steps := d.next_steps.getD []
    ai_confidence := d.confidence.getD (75/100)
    provider := some (pys "Local " ++ model_name) }

/-- `AIAnalysisService._analyze_with_lm_studio` (ai_analysis.py 227–243):
    confidence default 0.8, provider label `'LM Studio ({model_name})'`. -/
def analyze_with_lm_studio (clientPresent : Bool) (o : CallOutcome)
    (model_name t : PyStr) : AnalysisResult :=
  let d := generate_lm_studio_analysis clientPresent o t
  { summary := d.summary.getD []
    action_items := d.action_items.getD []
    key_decisions := d.key_decisions.getD []
    topics_discussed := d.topics_discussed.getD []
    participants := d.participants.getD []
    next_steps := d.next_steps.getD []
    ai_confidence := d.confidence.getD (80/100)
    provider := some (pys "LM Studio (" ++ model_name ++ pys ")") }

/-- The `AIAnalysisService` attributes `analyze_meeting` dispatches on. -/
structure ServiceState where
  provider : PyStr
  model_name : PyStr
  openai_client : Bool
  ollama_available : Bool
  lm_studio_available : Bool
  lm_studio_client : Bool
  deriving Repr, DecidableEq

/-- The environment of one `analyze_meeting` call: how each backend's chat
    call would turn out. -/
structure Env where
  openai : CallOutcome
  ollama : CallOutcome
  lm_studio : CallOutcome
  deriving Repr, DecidableEq

/-- `AIAnalysisService.analyze_meeting` (ai_analysis.py 172–189): dispatch on
    the selected provider and its availability flag, else fallback. -/
def analyze_meeting (svc : ServiceState) (env : Env) (t : PyStr) :
    AnalysisResult :=
  if svc.provider == pys "openai" && svc.openai_client then
    analyze_with_openai svc.openai_client env.openai t
  else if svc.provider == pys "ollama" && svc.ollama_available then
    analyze_with_ollama env.ollama svc.model_name t
  else if svc.provider == pys "lm_studio" && svc.lm_studio_available then
    analyze_with_lm_studio svc.lm_studio_client env.lm_studio svc.model_name t
  else
    fallback_analysis t

/-- Backend self-reported confidences in a parsed dict are within `[0,1]`. -/
def dictConfOK (d : ParsedDict) : Prop :=
  ∀ q : ℚ, d.confidence = some q → 0 ≤ q ∧ q ≤ 1

/-- All parsed dicts an outcome can deliver satisfy `dictConfOK`. -/
def outcomeConfOK (o : CallOutcome) : Prop :=
  ∀ d : ParsedDict, o = CallOutcome.parsed d → dictConfOK d

/-- All three backend outcomes of an environment satisfy `outcomeConfOK`. -/
def envConfOK (e : Env) : Prop :=
  outcomeConfOK e.openai ∧ outcomeConfOK e.ollama ∧ outcomeConfOK e.lm_studio

end PrivaNote.AIAnalysis

namespace PrivaNote.Storage

open PrivaNote

/-- The searched projections of a stored `'analysis'` dict
    (`search_meetings` reads `summary`, `action_items`, `key_decisions` with
    `.get` defaults, storage.py 135–138). -/
structure Analysis where
  summary : PyStr := []
  action_items : List PyStr := []
  key_decisions : List PyStr := []
  deriving Repr, DecidableEq

/-- A meeting dict, restricted to the keys `StorageService` touches.
    `none` models the key being absent from the dict. -/
structure Meeting where
  id : Option PyStr := none
  title : Option PyStr := none
  transcript : Option PyStr := none
  notes : Option PyStr := none
  analysis : Option Analysis := none
  created_at : Option PyStr := none
  updated_at : Option PyStr := none
  saved_at : Option PyStr := none
  version : Option PyStr := none
  deriving Repr, DecidableEq

/-- `StorageService.save_meeting` (storage.py 18–43).  The required-fields
    check runs before any mutation; on success the dict is stamped with
    `saved_at`/`version` and appended.  When the stamped dict has no `'id'`
    key, the append has already happened when `meeting_data['id']` raises
    `KeyError` (wrapped in the outer `Exception`), so the store keeps the
    appended record on that error path.  The state parameter `now` stands for
    `datetime.now().isoformat()`. -/
def save_meeting (now : PyStr) (store : List Meeting) (m : Meeting) :
    List Meeting × Except PyStr PyStr :=
  if m.title.isSome && m.transcript.isSome && m.analysis.isSome then
    let m' := { m with saved_at := some now, version := some (pys "1.0") }
    match m'.id with
    | some i => (store ++ [m'], Except.ok i)
    | none => (store ++ [m'], Except.error (pys "Failed to save meeting: 'id'"))
  else
    (store, Except.error (pys "Failed to save meeting: Meeting data missing required fields"))

/-- `StorageService.get_meeting` (storage.py 45–58): first meeting whose
    `'id'` equals the requested id, else `None`. -/
def get_meeting (store : List Meeting) (meeting_id : PyStr) : Option Meeting :=
  store.find? (fun m => m.id == some meeting_id)

/-- `StorageService.update_meeting` (storage.py 69–87): replace the first
    meeting with a matching id *wholesale* by `updated_data`, after writing
    `updated_data['created_at'] = meeting.get('created_at')` and a fresh
    `updated_at`; return `False` and change nothing when no id matches. -/
def update_meeting (now : PyStr) (meeting_id : PyStr) (updated_data : Meeting) :
    List Meeting → List Meeting × Bool
  | [] => ([], false)
  | m :: rest =>
    if m.id == some meeting_id then
      ({ updated_data with
           created_at := m.created_at
           updated_at := some now } :: rest, true)
    else
      let r := update_meeting now meeting_id updated_data rest
      (m :: r.1, r.2)

/-- `StorageService.delete_meeting` (storage.py 89–103): delete the first
    meeting with a matching id; `False` when none matches. -/
def delete_meeting (meeting_id : PyStr) :
    List Meeting → List Meeting × Bool
  | [] => ([], false)
  | m :: rest =>
    if m.id == some meeting_id then (rest, true)
    else
      let r := delete_meeting meeting_id rest
      (m :: r.1, r.2)

/-- The string-valued field of a meeting dict named `f`, as `search_meetings`
    sees it (`field in meeting` + `isinstance(..., str)`). -/
def getStrField (m : Meeting) (f : PyStr) : Option PyStr :=
  if f == pys "id" then m.id
  else if f == pys "title" then m.title
  else if f == pys "transcript" then m.transcript
  else if f == pys "notes" then m.notes
  else if f == pys "created_at" then m.created_at
  else if f == pys "updated_at" then m.updated_at
  else if f == pys "saved_at" then m.saved_at
  else if f == pys "version" then m.version
  else none

/-- The `search_text` accumulated by `search_meetings` for one meeting
    (storage.py 128–138): `" " + value` for each present string field, and for
    a present `'analysis'` field `" " + summary + " " + " ".join(action_items)
    + " " + " ".join(key_decisions)`. -/
def searchText (m : Meeting) (fields : List PyStr) : PyStr :=
  fields.foldl (fun acc f =>
    match getStrField m f with
    | some s => acc ++ [' '] ++ s
    | none =>
      if f == pys "analysis" then
        match m.analysis with
        | some a =>
          acc ++ [' '] ++ a.summary
              ++ [' '] ++ pyJoin [' '] a.action_items
              ++ [' '] ++ pyJoin [' '] a.key_decisions
        | none => acc
      else acc) []

/-- `StorageService.search_meetings` (storage.py 109–143).  The *default*
    field list is `['title', 'transcript', 'notes']`; a meeting matches when
    the lowered query is a substring of the lowered accumulated search
    text. -/
def search_meetings (store : List Meeting) (query : PyStr)
    (fields : Option (List PyStr)) : List Meeting :=
  let fs := fields.getD [pys "title", pys "transcript", pys "notes"]
  store.filter (fun m => pyIn (pyLower query) (pyLower (searchText m fs)))

/-- `StorageService.import_data` (storage.py 201–232), after `json.loads`:
    keep the imported meetings having the three required keys, drop those
    whose id already occurs in the store, and extend.  Returns the new store
    and the count of meetings added. -/
def import_data (store : List Meeting) (imported : List Meeting) :
    List Meeting × Nat :=
  let valid := imported.filter
    (fun m => m.title.isSome && m.transcript.isSome && m.analysis.isSome)
  let existing_ids := store.map Meeting.id
  let new_meetings := valid.filter (fun m => !(existing_ids.contains m.id))
  (store ++ new_meetings, new_meetings.length)

end PrivaNote.Storage

namespace PrivaNote.Transcription

open PrivaNote

/-- The `TranscriptionService` state `change_model_size` touches: the current
    size and the loaded model (abstract; `none` = initialization failed and
    `self.model` is `None`). -/
structure TState where
  model_size : PyStr
  model : Option PyStr
  deriving Repr, DecidableEq

/-- `valid_sizes` of `change_model_size` (transcription.py 178). -/
def valid_sizes : List PyStr :=
  [pys "tiny", pys "base", pys "small", pys "medium", pys "large"]

/-- `TranscriptionService._initialize_model` (transcription.py 14–31),
    abstracted by the environment `loader`: loading either yields a model for
    the current size or fails, in which case `self.model = None`. -/
def load_model (loader : PyStr → Option PyStr) (st : TState) : TState :=
  { st with model := loader st.model_size }

/-- `TranscriptionService.change_model_size` (transcription.py 171–184): raise
    `ValueError` on a size outside `valid_sizes` (before touching any state);
    re-initialize only when the size actually changes. -/
def change_model_size (loader : PyStr → Option PyStr) (size : PyStr)
    (st : TState) : TState × Except PyStr Unit :=
  if !(valid_sizes.contains size) then
    (st, Except.error (pys "Invalid model size. Choose from: ..."))
  else if size != st.model_size then
    (load_model loader { st with model_size := size }, Except.ok ())
  else
    (st, Except.ok ())

/-- Did an `Except`-modelled call raise? -/
def raised {ε α : Type} : Except ε α → Bool
  | Except.error _ => true
  | Except.ok _ => false

end PrivaNote.Transcription

namespace PrivaNote.Storage.Objects

open PrivaNote PrivaNote.Storage

/-- A heap of Python objects for the aliasing behaviour of
    `StorageService.get_all_meetings` (storage.py 60–67).  List objects hold
    addresses of meeting-dict objects; `st.session_state.meetings` is the list
    object at `storeAddr`.  `next` is the allocation cursor: every live
    address is below it. -/
structure PyState where
  lists : Nat → List Nat
  dicts : Nat → Meeting
  next : Nat

/-- The meeting sequence a reader of the store observes. -/
def storeView (σ : PyState) (storeAddr : Nat) : List Meeting :=
  (σ.lists storeAddr).map σ.dicts

/-- `StorageService.get_all_meetings` (storage.py 60–67):
    `st.session_state.meetings.copy()` — allocate a *new list object* with the
    same element addresses (a shallow copy) and return its address. -/
def get_all_meetings (σ : PyState) (storeAddr : Nat) : Nat × PyState :=
  (σ.next,
   { σ with
       lists := Function.update σ.lists σ.next (σ.lists storeAddr)
       next := σ.next + 1 })

/-- A caller-side mutation of a list object (e.g. `lst.clear()`,
    `lst.append(...)`, `del lst[i]`): replaces that object's contents. -/
def mutateList (σ : PyState) (a : Nat) (contents : List Nat) : PyState :=
  { σ with lists := Function.update σ.lists a contents }

/-- A caller-side mutation of a meeting-dict object
    (e.g. `meeting['title'] = ...`). -/
def mutateDict (σ : PyState) (a : Nat) (m : Meeting) : PyState :=
  { σ with dicts := Function.update σ.dicts a m }

end PrivaNote.Storage.Objects

namespace PrivaNote

open PrivaNote.AIAnalysis PrivaNote.Storage

/-- The scenario transcript of spec §8. -/
def scenarioTranscript : PyStr :=
  pys "We decided to launch Friday. John will send the report."

/-- Modelled from the spec's (amended) wording for the default search: the
    concatenation of the present fields among `title`, `transcript`, `notes`,
    each preceded by a separating space.  Compared against the source-derived
    `searchText` below. -/
def defaultSearchable (m : Meeting) : PyStr :=
  (match m.title with | some s => ' ' :: s | none => [])
  ++ ((match m.transcript with | some s => ' ' :: s | none => [])
  ++ (match m.notes with | some s => ' ' :: s | none => []))

/-- A stored meeting with id `"a"` (for the save/get counterexample). -/
def exOld : Meeting :=
  { id := some (pys "a"), title := some (pys "old meeting"),
    transcript := some (pys "first transcript"), analysis := some {} }

/-- A second meeting reusing id `"a"` (complete, so `save_meeting` accepts it). -/
def exNew : Meeting :=
  { id := some (pys "a"), title := some (pys "new meeting"),
    transcript := some (pys "second transcript"), analysis := some {} }

/-- A complete meeting with id `"b"` (for witnesses needing a fresh id). -/
def exOther : Meeting :=
  { id := some (pys "b"), title := some (pys "other meeting"),
    transcript := some (pys "other transcript"), analysis := some {} }

/-- A meeting whose only occurrence of "budget review" is inside
    `analysis.summary` (for the search counterexample). -/
def exAnalysisOnly : Meeting :=
  { id := some (pys "m1"), title := some (pys "Standup"),
    transcript := some (pys "daily sync"), notes := some (pys "none"),
    analysis := some { summary := pys "budget review planned" } }

/-- A meeting with "budget review" in its transcript. -/
def exBudget : Meeting :=
  { id := some (pys "m2"), title := some (pys "Finance"),
    transcript := some (pys "quarterly budget review session"),
    notes := some (pys ""), analysis := some {} }

/-- A meeting without "budget" anywhere searchable. -/
def exNoBudget : Meeting :=
  { id := some (pys "m3"), title := some (pys "Retro"),
    transcript := some (pys "sprint retrospective"), notes := some (pys ""),
    analysis := some {} }

/-- A meeting record with `title`, `transcript` and `analysis` but no `id`
    (for the save-without-id counterexample). -/
def exNoId : Meeting :=
  { title := some (pys "Weekly"), transcript := some (pys "hello world"),
    analysis := some {} }

/-- An update payload that carries only an id, a title and notes — no
    transcript and no analysis (for the whole-record-replacement witness). -/
def exUpdate : Meeting :=
  { id := some (pys "b"), title := some (pys "edited title"),
    notes := some (pys "edited notes") }

/-- Two meetings for the get_all_meetings aliasing counterexample. -/
def exShared : Meeting :=
  { id := some (pys "s"), title := some (pys "shared title"),
    transcript := some (pys "tr"), analysis := some {} }

/-- The mutated version of `exShared` a caller writes through the alias. -/
def exMutated : Meeting :=
  { id := some (pys "s"), title := some (pys "caller changed this"),
    transcript := some (pys "tr"), analysis := some {} }

/-- A concrete heap: the store list object lives at address 0 and holds the
    single meeting-dict object at address 1. -/
def exHeap : Storage.Objects.PyState :=
  { lists := fun a => if a = 0 then [1] else []
    dicts := fun _ => exShared
    next := 2 }

end PrivaNote

namespace PrivaNote.AIAnalysis

open PrivaNote

lemma dictConfOK_dictOfFallback (r : AnalysisResult) :
    dictConfOK (dictOfFallback r) := fun _ h => nomatch h

lemma dictConfOK_empty : dictConfOK ({} : ParsedDict) := fun _ h => nomatch h

lemma generate_openai_confOK (cp : Bool) (o : CallOutcome) (t : PyStr)
    (h : outcomeConfOK o) : dictConfOK (generate_openai_analysis cp o t) := by
  cases cp with
  | false => exact dictConfOK_dictOfFallback _
  | true =>
    cases o with
    | parsed d => exact h d rfl
    | emptyContent => exact dictConfOK_empty
    | parseError => exact dictConfOK_dictOfFallback _
    | apiError => exact dictConfOK_dictOfFallback _

lemma generate_ollama_confOK (o : CallOutcome) (t : PyStr)
    (h : outcomeConfOK o) : dictConfOK (generate_ollama_analysis o t) := by
  cases o with
  | parsed d => exact h d rfl
  | emptyContent => exact dictConfOK_empty
  | parseError => exact dictConfOK_dictOfFallback _
  | apiError => exact dictConfOK_dictOfFallback _

lemma generate_lm_studio_confOK (cp : Bool) (o : CallOutcome) (t : PyStr)
    (h : outcomeConfOK o) : dictConfOK (generate_lm_studio_analysis cp o t) := by
  cases cp with
  | false => exact dictConfOK_dictOfFallback _
  | true =>
    cases o with
    | parsed d => exact h d rfl
    | emptyContent => exact dictConfOK_empty
    | parseError => exact dictConfOK_dictOfFallback _
    | apiError => exact dictConfOK_dictOfFallback _

lemma outcomeConfOK_apiError : outcomeConfOK CallOutcome.apiError :=
  fun _ h => nomatch h

lemma outcomeConfOK_emptyContent : outcomeConfOK CallOutcome.emptyContent :=
  fun _ h => nomatch h

lemma conf_getD_mem (c : ℚ) (hc0 : 0 ≤ c) (hc1 : c ≤ 1) (d : ParsedDict)
    (hd : dictConfOK d) : 0 ≤ d.confidence.getD c ∧ d.confidence.getD c ≤ 1 := by
  cases h : d.confidence with
  | none => simpa using ⟨hc0, hc1⟩
  | some q => simpa using hd q h

/-- C1 (amended): for every service state, backend environment and transcript,
    `analyze_meeting` is a total function whose result always carries every
    field of the normalized shape *except* `provider`, which is absent exactly
    when the call dispatched straight to the fallback analyzer; and whenever
    every backend self-reported confidence lies in `[0,1]`, the returned
    confidence lies in `[0,1]`.  (As stated the claim is false: the fallback
    dict has no `providerLabel`, see the counterexample.) -/
theorem analyze_meeting_total_normalized (svc : ServiceState) (env : Env)
    (t : PyStr) (h : envConfOK env) :
    0 ≤ (analyze_meeting svc env t).ai_confidence
  ∧ (analyze_meeting svc env t).ai_confidence ≤ 1
  ∧ ((analyze_meeting svc env t).provider = none →
      analyze_meeting svc env t = fallback_analysis t) := by
  obtain ⟨h1, h2, h3⟩ := h
  unfold analyze_meeting
  split
  · have hb := conf_getD_mem (85/100) (by norm_num) (by norm_num) _
      (generate_openai_confOK svc.openai_client env.openai t h1)
    exact ⟨hb.1, hb.2, fun hp => nomatch hp⟩
  · split
    · have hb := conf_getD_mem (75/100) (by norm_num) (by norm_num) _
        (generate_ollama_confOK env.ollama t h2)
      exact ⟨hb.1, hb.2, fun hp => nomatch hp⟩
    · split
      · have hb := conf_getD_mem (80/100) (by norm_num) (by norm_num) _
          (generate_lm_studio_confOK svc.lm_studio_client env.lm_studio t h3)
        exact ⟨hb.1, hb.2, fun hp => nomatch hp⟩
      · refine ⟨?_, ?_, fun _ => rfl⟩
        · show (0:ℚ) ≤ 3/10
          norm_num
        · show (3:ℚ)/10 ≤ 1
          norm_num

/-- C1 witness: the amended theorem applied at a concrete service state,
    environment and transcript. -/
theorem analyze_meeting_total_normalized_witness :
    0 ≤ (analyze_meeting
          { provider := pys "lm_studio", model_name := pys "google/gemma-3n-e4b",
            openai_client := false, ollama_available := false,
            lm_studio_available := true, lm_studio_client := true }
          { openai := CallOutcome.apiError, ollama := CallOutcome.apiError,
            lm_studio := CallOutcome.emptyContent }
          (pys "Hi there.")).ai_confidence
  ∧ (analyze_meeting
          { provider := pys "lm_studio", model_name := pys "google/gemma-3n-e4b",
            openai_client := false, ollama_available := false,
            lm_studio_available := true, lm_studio_client := true }
          { openai := CallOutcome.apiError, ollama := CallOutcome.apiError,
            lm_studio := CallOutcome.emptyContent }
          (pys "Hi there.")).ai_confidence ≤ 1
  ∧ ((analyze_meeting
          { provider := pys "lm_studio", model_name := pys "google/gemma-3n-e4b",
            openai_client := false, ollama_available := false,
            lm_studio_available := true, lm_studio_client := true }
          { openai := CallOutcome.apiError, ollama := CallOutcome.apiError,
            lm_studio := CallOutcome.emptyContent }
          (pys "Hi there.")).provider = none →
      analyze_meeting
          { provider := pys "lm_studio", model_name := pys "google/gemma-3n-e4b",
            openai_client := false, ollama_available := false,
            lm_studio_available := true, lm_studio_client := true }
          { openai := CallOutcome.apiError, ollama := CallOutcome.apiError,
            lm_studio := CallOutcome.emptyContent }
          (pys "Hi there.") = fallback_analysis (pys "Hi there.")) :=
  analyze_meeting_total_normalized _ _ _
    (And.intro outcomeConfOK_apiError
      (And.intro outcomeConfOK_apiError outcomeConfOK_emptyContent))

/-- C1 counterexample: with the cloud provider selected but no client
    initialized, `analyze_meeting` dispatches to `_fallback_analysis`, whose
    returned dict has *no* `'provider'` key — so the claim's "all fields
    (... providerLabel) present" is false for this input. -/
theorem analyze_meeting_providerLabel_missing :
    (analyze_meeting
        { provider := pys "openai", model_name := pys "gpt-4o",
          openai_client := false, ollama_available := false,
          lm_studio_available := false, lm_studio_client := false }
        { openai := CallOutcome.apiError, ollama := CallOutcome.apiError,
          lm_studio := CallOutcome.apiError }
        scenarioTranscript).provider = none := rfl

/-- C2: with the cloud provider selected and its client initialized, a failing
    backend call (e.g. HTTP 500) is caught *inside*
    `_generate_openai_analysis`, which returns the fallback dict as if it were
    parsed backend JSON; `_analyze_with_openai` then relabels it
    `provider='OpenAI'` and, because the fallback dict stores its confidence
    under `'ai_confidence'` rather than `'confidence'`, stamps the OpenAI
    default confidence 0.85.  The result therefore does *not* equal the
    FallbackAnalyzer result required by the claim (confidence 0.3, no
    backend label), although its content fields do come from the fallback and
    no exception reaches the caller. -/
theorem cloud_failure_mislabeled :
    (analyze_meeting
        { provider := pys "openai", model_name := pys "gpt-4o",
          openai_client := true, ollama_available := false,
          lm_studio_available := false, lm_studio_client := false }
        { openai := CallOutcome.apiError, ollama := CallOutcome.apiError,
          lm_studio := CallOutcome.apiError }
        scenarioTranscript).provider = some (pys "OpenAI")
  ∧ (analyze_meeting
        { provider := pys "openai", model_name := pys "gpt-4o",
          openai_client := true, ollama_available := false,
          lm_studio_available := false, lm_studio_client := false }
        { openai := CallOutcome.apiError, ollama := CallOutcome.apiError,
          lm_studio := CallOutcome.apiError }
        scenarioTranscript).ai_confidence = 85/100
  ∧ (analyze_meeting
        { provider := pys "openai", model_name := pys "gpt-4o",
          openai_client := true, ollama_available := false,
          lm_studio_available := false, lm_studio_client := false }
        { openai := CallOutcome.apiError, ollama := CallOutcome.apiError,
          lm_studio := CallOutcome.apiError }
        scenarioTranscript).summary = (fallback_analysis scenarioTranscript).summary
  ∧ (analyze_meeting
        { provider := pys "openai", model_name := pys "gpt-4o",
          openai_client := true, ollama_available := false,
          lm_studio_available := false, lm_studio_client := false }
        { openai := CallOutcome.apiError, ollama := CallOutcome.apiError,
          lm_studio := CallOutcome.apiError }
        scenarioTranscript).key_decisions
      = (fallback_analysis scenarioTranscript).key_decisions
  ∧ (fallback_analysis scenarioTranscript).ai_confidence = 3/10
  ∧ (fallback_analysis scenarioTranscript).provider = none
  ∧ analyze_meeting
        { provider := pys "openai", model_name := pys "gpt-4o",
          openai_client := true, ollama_available := false,
          lm_studio_available := false, lm_studio_client := false }
        { openai := CallOutcome.apiError, ollama := CallOutcome.apiError,
          lm_studio := CallOutcome.apiError }
        scenarioTranscript ≠ fallback_analysis scenarioTranscript := by
  refine ⟨rfl, rfl, rfl, rfl, rfl, rfl, fun heq => ?_⟩
  exact nomatch congrArg AnalysisResult.provider heq

/-- C3 (amended): the fallback analyzer extracts, from the `'.'`-split
    segments in document order, the stripped segments containing an action
    keyword (capped at 5) and those containing a decision keyword (capped at
    5); its summary is the word-count statement plus first and second-to-last
    segment when at least 3 segments exist; the remaining sequences are empty
    and the confidence is exactly 0.3.  For the scenario transcript the key
    decisions contain the first sentence but the action items are *empty*
    ("will send" matches no action keyword). -/
theorem fallback_analysis_characterization :
    (∀ t : PyStr,
      (fallback_analysis t).action_items
          = (((pySplitOn '.' t).filter
              (fun s => action_keywords.any (fun kw => pyIn kw (pyLower s)))).map
                pyStrip).take 5
      ∧ (fallback_analysis t).key_decisions
          = (((pySplitOn '.' t).filter
              (fun s => decision_keywords.any (fun kw => pyIn kw (pyLower s)))).map
                pyStrip).take 5
      ∧ (fallback_analysis t).summary
          = (if 3 ≤ (pySplitOn '.' t).length then
              pys "Meeting transcript contains "
                ++ natStr (pyWords (pyLower t)).length ++ pys " words. "
                ++ pyStrip ((pySplitOn '.' t).headD []) ++ pys ". "
                ++ pyStrip ((pySplitOn '.' t).getD ((pySplitOn '.' t).length - 2) [])
                ++ pys "."
            else
              pys "Meeting transcript contains "
                ++ natStr (pyWords (pyLower t)).length ++ pys " words. ")
      ∧ (fallback_analysis t).topics_discussed = []
      ∧ (fallback_analysis t).participants = []
      ∧ (fallback_analysis t).next_steps = []
      ∧ (fallback_analysis t).ai_confidence = 3/10
      ∧ (fallback_analysis t).action_items.length ≤ 5
      ∧ (fallback_analysis t).key_decisions.length ≤ 5)
  ∧ (fallback_analysis scenarioTranscript).key_decisions
      = [pys "We decided to launch Friday"]
  ∧ (fallback_analysis scenarioTranscript).action_items = [] := by
  refine ⟨fun t => ⟨rfl, rfl, rfl, rfl, rfl, rfl, rfl, ?_, ?_⟩, by decide, by decide⟩
  · exact List.length_take_le 5 _
  · exact List.length_take_le 5 _

/-- C3 counterexample: on the scenario transcript of spec §8, the fallback's
    action items are empty — they do not contain the second sentence, because
    "John will send the report" contains none of the action keywords
    (`'will do'` ≠ "will send"). -/
theorem fallback_scenario_counterexample :
    (fallback_analysis scenarioTranscript).action_items = []
  ∧ pys "John will send the report" ∉ (fallback_analysis scenarioTranscript).action_items := by
  refine ⟨by decide, by decide⟩

end PrivaNote.AIAnalysis

namespace PrivaNote.Storage

open PrivaNote

lemma get_meeting_eq_none (store : List Meeting) (i : PyStr)
    (h : ∀ x ∈ store, x.id ≠ some i) : get_meeting store i = none := by
  rw [get_meeting, List.find?_eq_none]
  intro x hx
  simpa [beq_iff_eq] using h x hx

lemma get_meeting_append_single (store : List Meeting) (m' : Meeting) (i : PyStr)
    (hfresh : ∀ x ∈ store, x.id ≠ some i) (hm : m'.id = some i) :
    get_meeting (store ++ [m']) i = some m' := by
  induction store with
  | nil => simp [get_meeting, List.find?, hm]
  | cons x xs ih =>
    have hx : (x.id == some i) = false := by
      simpa [beq_iff_eq] using hfresh x (by simp)
    rw [get_meeting] at *
    simpa [List.find?_cons, hx] using ih (fun y hy => hfresh y (by simp [hy]))

lemma get_after_delete (i : PyStr) (store : List Meeting)
    (h : (store.map Meeting.id).Nodup) :
    get_meeting (delete_meeting i store).1 i = none := by
  induction store with
  | nil => rfl
  | cons m rest ih =>
    rw [List.map_cons] at h
    have hh := List.nodup_cons.mp h
    by_cases hm : (m.id == some i) = true
    · have hmid : m.id = some i := by simpa [beq_iff_eq] using hm
      simp only [delete_meeting, hm, if_true]
      apply get_meeting_eq_none
      intro x hx hxid
      exact hh.1 (by rw [hmid, ← hxid]; exact List.mem_map_of_mem Meeting.id hx)
    · simp only [delete_meeting, hm, if_false, Bool.false_eq_true]
      rw [get_meeting, List.find?_cons]
      simp only [hm]
      exact ih hh.2

lemma delete_meeting_succeeds (i : PyStr) (store : List Meeting)
    (h : some i ∈ store.map Meeting.id) : (delete_meeting i store).2 = true := by
  induction store with
  | nil => simp at h
  | cons m rest ih =>
    by_cases hm : (m.id == some i) = true
    · simp [delete_meeting, hm]
    · have hmne : m.id ≠ some i := by simpa [beq_iff_eq] using hm
      simp only [delete_meeting, hm, if_false, Bool.false_eq_true]
      rw [List.map_cons] at h
      rcases List.mem_cons.mp h with heq | hmem
      · exact absurd heq.symm hmne
      · exact ih hmem

/-- C4 (amended): on a store with pairwise-distinct ids — whenever the saved
    record carries an id that does not already occur in the store (and its
    required fields), `save_meeting` succeeds and `get_meeting` on the new
    store returns exactly the saved, metadata-stamped record; and
    `delete_meeting i` *succeeds* for every stored id `i`, after which
    `get_meeting i` returns `none`.  (As stated — over *every* store state —
    the claim fails when the saved id already occurs: see the
    counterexample.) -/
theorem save_get_delete_roundtrip (now i : PyStr) (store : List Meeting)
    (m : Meeting) (hnodup : (store.map Meeting.id).Nodup) :
    (m.id = some i → m.title.isSome = true → m.transcript.isSome = true →
      m.analysis.isSome = true → (∀ x ∈ store, x.id ≠ some i) →
      (save_meeting now store m).2 = Except.ok i
      ∧ get_meeting (save_meeting now store m).1 i
          = some { m with saved_at := some now, version := some (pys "1.0") })
  ∧ (some i ∈ store.map Meeting.id → (delete_meeting i store).2 = true)
  ∧ get_meeting (delete_meeting i store).1 i = none := by
  refine ⟨fun hid ht htr ha hfresh => ⟨?_, ?_⟩,
    delete_meeting_succeeds i store, get_after_delete i store hnodup⟩
  · simp [save_meeting, ht, htr, ha, hid]
  · have hsave : (save_meeting now store m).1
        = store ++ [{ m with saved_at := some now, version := some (pys "1.0") }] := by
      simp [save_meeting, ht, htr, ha, hid]
    rw [hsave]
    exact get_meeting_append_single store _ i hfresh hid

/-- C4 witness: the amended round-trip at a concrete two-meeting store — a
    save under the fresh id `"b"` followed by `get "b"`, and a *successful*
    delete of the stored id `"a"` followed by `get "a"`. -/
theorem save_get_delete_roundtrip_witness :
    (save_meeting (pys "d") [exOld] exOther).2 = Except.ok (pys "b")
  ∧ get_meeting (save_meeting (pys "d") [exOld] exOther).1 (pys "b")
      = some { exOther with saved_at := some (pys "d"), version := some (pys "1.0") }
  ∧ (delete_meeting (pys "a") [exOld, exOther]).2 = true
  ∧ get_meeting (delete_meeting (pys "a") [exOld, exOther]).1 (pys "a") = none :=
  ⟨((save_get_delete_roundtrip (pys "d") (pys "b") [exOld] exOther (by decide)).1
      rfl rfl rfl rfl (by decide)).1,
   ((save_get_delete_roundtrip (pys "d") (pys "b") [exOld] exOther (by decide)).1
      rfl rfl rfl rfl (by decide)).2,
   (save_get_delete_roundtrip (pys "d") (pys "a") [exOld, exOther] exOther
      (by decide)).2.1 (by decide),
   (save_get_delete_roundtrip (pys "d") (pys "a") [exOld, exOther] exOther
      (by decide)).2.2⟩

/-- C4 counterexample: starting from a store that already holds a meeting with
    id `"a"`, saving a second (complete) meeting with the same id succeeds,
    but `get_meeting "a"` then returns the *old* stored record, not a value
    equal to the just-saved one — the claim's "for every store state" fails. -/
theorem save_get_counterexample :
    (save_meeting (pys "d") [exOld] exNew).2 = Except.ok (pys "a")
  ∧ get_meeting (save_meeting (pys "d") [exOld] exNew).1 (pys "a") = some exOld
  ∧ some exOld
      ≠ some { exNew with saved_at := some (pys "d"), version := some (pys "1.0") } := by
  refine ⟨rfl, rfl, by decide⟩

lemma getStrField_title (m : Meeting) : getStrField m (pys "title") = m.title := rfl

lemma getStrField_transcript (m : Meeting) :
    getStrField m (pys "transcript") = m.transcript := rfl

lemma getStrField_notes (m : Meeting) : getStrField m (pys "notes") = m.notes := rfl

lemma searchText_default (m : Meeting) :
    searchText m [pys "title", pys "transcript", pys "notes"]
      = defaultSearchable m := by
  cases htitle : m.title <;> cases htr : m.transcript <;> cases hnotes : m.notes <;>
    simp +decide [searchText, getStrField, defaultSearchable, htitle, htr, hnotes,
      List.append_assoc]

/-- C5 (amended): `search_meetings` with its *actual* default field set
    `['title', 'transcript', 'notes']` returns exactly the meetings whose
    concatenated present title/transcript/notes fields contain the query
    case-insensitively; the analysis sub-fields are searched only when
    `'analysis'` is passed explicitly.  The spec's "budget" scenario still
    holds because the match is in the transcript. -/
theorem search_meetings_default_fields :
    (∀ (store : List Meeting) (q : PyStr),
      search_meetings store q none
        = store.filter (fun m => pyIn (pyLower q) (pyLower (defaultSearchable m))))
  ∧ search_meetings [exBudget, exNoBudget] (pys "Budget") none = [exBudget] := by
  constructor
  · intro store q
    simp only [search_meetings, Option.getD_none]
    refine List.filter_congr fun m _ => ?_
    rw [searchText_default]
  · decide

/-- C5 counterexample: a meeting whose only occurrence of the query is inside
    `analysis.summary` is *not* returned by a default-field search, although
    the claim's six-field reading says it must be. -/
theorem search_misses_analysis_counterexample :
    pyIn (pyLower (pys "Budget"))
        (pyLower ((exAnalysisOnly.analysis.getD {}).summary)) = true
  ∧ search_meetings [exAnalysisOnly] (pys "Budget") none = [] := by
  refine ⟨by decide, by decide⟩

/-- C6 (amended): `save_meeting` rejects — with the store unchanged — any
    record missing `title`, `transcript` or `analysis`; a record with all
    three fields *and an id* is stamped, appended and its id returned.  (A
    record with the three fields but no id is appended and the call still
    fails — see the counterexample — which is what forces the id proviso.) -/
theorem save_meeting_validation (now : PyStr) (store : List Meeting)
    (m : Meeting) :
    (¬(m.title.isSome = true ∧ m.transcript.isSome = true
        ∧ m.analysis.isSome = true) →
      save_meeting now store m
        = (store, Except.error
            (pys "Failed to save meeting: Meeting data missing required fields")))
  ∧ (∀ i, m.id = some i → m.title.isSome = true → m.transcript.isSome = true →
      m.analysis.isSome = true →
      save_meeting now store m
        = (store ++ [{ m with saved_at := some now, version := some (pys "1.0") }],
           Except.ok i)) := by
  constructor
  · intro h
    have hc : (m.title.isSome && m.transcript.isSome && m.analysis.isSome) = false := by
      cases h1 : m.title.isSome <;> cases h2 : m.transcript.isSome <;>
        cases h3 : m.analysis.isSome <;> simp_all
    simp [save_meeting, hc]
  · intro i hi h1 h2 h3
    simp [save_meeting, h1, h2, h3, hi]

/-- C6 witness: validation at a concrete incomplete and a concrete complete
    record. -/
theorem save_meeting_validation_witness :
    save_meeting (pys "d") [] ({} : Meeting)
      = ([], Except.error
          (pys "Failed to save meeting: Meeting data missing required fields"))
  ∧ save_meeting (pys "d") [] exOther
      = ([{ exOther with saved_at := some (pys "d"), version := some (pys "1.0") }],
         Except.ok (pys "b")) :=
  ⟨(save_meeting_validation (pys "d") [] {}).1 (by decide),
   (save_meeting_validation (pys "d") [] exOther).2 (pys "b") rfl rfl rfl rfl⟩

/-- C6 counterexample: a record with `title`, `transcript` and `analysis` but
    no `id` makes `save_meeting` fail (Python raises `KeyError` on
    `meeting_data['id']`) — and the raise happens *after* the append, so the
    store has changed as well; the claim's "appends it and returns its id" is
    false for this input. -/
theorem save_meeting_no_id_counterexample :
    (save_meeting (pys "d") [] exNoId).2
      = Except.error (pys "Failed to save meeting: 'id'")
  ∧ (save_meeting (pys "d") [] exNoId).1
      = [{ exNoId with saved_at := some (pys "d"), version := some (pys "1.0") }] := by
  refine ⟨rfl, rfl⟩

lemma delete_meeting_sublist (i : PyStr) (store : List Meeting) :
    List.Sublist (delete_meeting i store).1 store := by
  induction store with
  | nil => simp [delete_meeting]
  | cons m rest ih =>
    by_cases hm : (m.id == some i) = true
    · simp only [delete_meeting, hm, if_true]
      exact List.sublist_cons_self m rest
    · simp only [delete_meeting, hm, if_false, Bool.false_eq_true]
      exact ih.cons₂ m

/-- C7 (amended): `delete_meeting` always preserves pairwise-distinct ids,
    and `import_data` preserves them whenever the imported batch's own ids
    are pairwise distinct (it only de-duplicates against pre-existing ids).
    `save_meeting` and `update_meeting` enforce nothing about ids — the
    claim's blanket invariant fails on `save_meeting`, see the
    counterexample. -/
theorem id_uniqueness_delete_import (i : PyStr) (store imported : List Meeting)
    (h : (store.map Meeting.id).Nodup) :
    ((delete_meeting i store).1.map Meeting.id).Nodup
  ∧ ((imported.map Meeting.id).Nodup →
      ((import_data store imported).1.map Meeting.id).Nodup) := by
  constructor
  · exact h.sublist ((delete_meeting_sublist i store).map Meeting.id)
  · intro hb
    simp only [import_data, List.map_append]
    refine List.Nodup.append h ?_ ?_
    · refine hb.sublist (List.Sublist.map Meeting.id ?_)
      exact (List.filter_sublist _).trans (List.filter_sublist _)
    · intro a ha hmem
      obtain ⟨mm, hmm, hmmid⟩ := List.mem_map.mp hmem
      have hcond := (List.mem_filter.mp hmm).2
      rw [hmmid] at hcond
      have : a ∉ List.map Meeting.id store := by simpa using hcond
      exact this ha

/-- C7 witness: the amended preservation at a concrete store and batch. -/
theorem id_uniqueness_delete_import_witness :
    ((delete_meeting (pys "a") [exOld, exOther]).1.map Meeting.id).Nodup
  ∧ ((import_data [exOld, exOther] [exNoId, exNew]).1.map Meeting.id).Nodup :=
  ⟨(id_uniqueness_delete_import (pys "a") [exOld, exOther] [exNoId, exNew]
      (by decide)).1,
   (id_uniqueness_delete_import (pys "a") [exOld, exOther] [exNoId, exNew]
      (by decide)).2 (by decide)⟩

/-- C7 counterexample: `save_meeting` never inspects existing ids — saving a
    complete meeting whose id `"a"` already occurs succeeds and leaves the
    store with two records of id `"a"`, so id uniqueness is *not* an
    invariant of every store operation. -/
theorem save_breaks_id_uniqueness :
    ([exOld].map Meeting.id).Nodup
  ∧ (save_meeting (pys "d") [exOld] exNew).2 = Except.ok (pys "a")
  ∧ ¬ ((save_meeting (pys "d") [exOld] exNew).1.map Meeting.id).Nodup := by
  refine ⟨by decide, rfl, by decide⟩

lemma update_meeting_not_found (now i : PyStr) (upd : Meeting)
    (store : List Meeting) (h : ∀ x ∈ store, x.id ≠ some i) :
    update_meeting now i upd store = (store, false) := by
  induction store with
  | nil => rfl
  | cons m rest ih =>
    have hm : (m.id == some i) = false := by
      simpa [beq_iff_eq] using h m (by simp)
    simp only [update_meeting, hm, if_false, Bool.false_eq_true]
    rw [ih (fun x hx => h x (by simp [hx]))]

lemma update_meeting_found (now i : PyStr) (upd : Meeting) (pre : List Meeting)
    (m : Meeting) (post : List Meeting)
    (hpre : ∀ x ∈ pre, x.id ≠ some i) (hm : m.id = some i) :
    update_meeting now i upd (pre ++ m :: post)
      = (pre ++ { upd with created_at := m.created_at,
                           updated_at := some now } :: post, true) := by
  induction pre with
  | nil => simp [update_meeting, hm]
  | cons x xs ih =>
    have hx : (x.id == some i) = false := by
      simpa [beq_iff_eq] using hpre x (by simp)
    simp only [List.cons_append, update_meeting, hx, if_false, Bool.false_eq_true,
      List.append_eq]
    rw [ih (fun y hy => hpre y (by simp [hy]))]

/-- C10: `update_meeting` does whole-record replacement: the first stored
    meeting whose id matches is replaced by exactly `updated_data` plus the
    original's `created_at` and a fresh `updated_at` — every field of the
    original absent from `updated_data` is dropped; when no id matches it
    returns `False` and leaves the store unchanged. -/
theorem update_meeting_whole_record (now i : PyStr) (upd : Meeting)
    (store : List Meeting) :
    ((∀ x ∈ store, x.id ≠ some i) → update_meeting now i upd store = (store, false))
  ∧ (∀ (pre : List Meeting) (m : Meeting) (post : List Meeting),
      store = pre ++ m :: post → (∀ x ∈ pre, x.id ≠ some i) → m.id = some i →
      update_meeting now i upd store
        = (pre ++ { upd with created_at := m.created_at,
                             updated_at := some now } :: post, true)) := by
  constructor
  · exact update_meeting_not_found now i upd store
  · intro pre m post hstore hpre hm
    rw [hstore]
    exact update_meeting_found now i upd pre m post hpre hm

/-- C10 witness: whole-record replacement at a concrete store; the update
    payload has no transcript and no analysis, and the replaced record indeed
    ends up without them. -/
theorem update_meeting_whole_record_witness :
    update_meeting (pys "u") (pys "z") exUpdate [exOld, exOther]
      = ([exOld, exOther], false)
  ∧ update_meeting (pys "u") (pys "b") exUpdate [exOld, exOther]
      = ([exOld, { exUpdate with created_at := exOther.created_at,
                                 updated_at := some (pys "u") }], true) :=
  ⟨(update_meeting_whole_record (pys "u") (pys "z") exUpdate [exOld, exOther]).1
      (by decide),
   (update_meeting_whole_record (pys "u") (pys "b") exUpdate [exOld, exOther]).2
      [exOld] exOther [] rfl (by decide) rfl⟩

end PrivaNote.Storage

namespace PrivaNote.Storage.Objects

open PrivaNote PrivaNote.Storage

/-- C8 (amended): `get_all_meetings` returns a *new list object*
    (`meetings.copy()`), so list-level mutations of the returned value —
    clearing it, appending, deleting entries — never change what the store's
    own list shows; but the copy is shallow: the meeting dicts are shared, so
    mutating a returned meeting record does change the store (see the
    counterexample). -/
theorem get_all_meetings_list_copy (σ : PyState) (storeAddr : Nat)
    (contents : List Nat) (h : storeAddr < σ.next) :
    storeView
        (mutateList (get_all_meetings σ storeAddr).2
          (get_all_meetings σ storeAddr).1 contents) storeAddr
      = storeView σ storeAddr := by
  have hne : storeAddr ≠ σ.next := Nat.ne_of_lt h
  simp [get_all_meetings, mutateList, storeView, Function.update_apply, hne]

/-- C8 witness: the list-copy guarantee on the concrete heap, with the caller
    emptying its copy. -/
theorem get_all_meetings_list_copy_witness :
    storeView
        (mutateList (get_all_meetings exHeap 0).2 (get_all_meetings exHeap 0).1 [])
        0
      = storeView exHeap 0 :=
  get_all_meetings_list_copy exHeap 0 [] (by decide)

/-- C8 counterexample: the copy returned by `get_all_meetings` holds the
    *same* meeting-dict object (address 1) as the store; writing to that
    record through the returned list changes what the store shows, so the
    claim's "including mutating the meeting records it contains" is false —
    the copy is shallow, not deep. -/
theorem get_all_meetings_shallow_counterexample :
    (get_all_meetings exHeap 0).2.lists (get_all_meetings exHeap 0).1 = [1]
  ∧ exHeap.lists 0 = [1]
  ∧ storeView (mutateDict (get_all_meetings exHeap 0).2 1 exMutated) 0
      = [exMutated]
  ∧ storeView exHeap 0 = [exShared]
  ∧ exMutated ≠ exShared := by
  refine ⟨rfl, rfl, rfl, rfl, by decide⟩

end PrivaNote.Storage.Objects

namespace PrivaNote.Transcription

open PrivaNote

/-- C9: `change_model_size` fails exactly when the requested size is not one
    of `tiny|base|small|medium|large`, and on that error path the
    transcriber's state — current model size *and* loaded model — is exactly
    what it was before the call (the `ValueError` is raised before any state
    is touched). -/
theorem change_model_size_spec (loader : PyStr → Option PyStr) (size : PyStr)
    (st : TState) :
    (raised (change_model_size loader size st).2 = true ↔ size ∉ valid_sizes)
  ∧ (size ∉ valid_sizes → (change_model_size loader size st).1 = st) := by
  by_cases hmem : size ∈ valid_sizes
  · have hc : valid_sizes.contains size = true := by simpa using hmem
    constructor
    · rw [change_model_size]
      simp only [hc, Bool.not_true, Bool.false_eq_true, if_false]
      by_cases hsz : size != st.model_size
      · simp [hsz, raised, hmem]
      · simp [hsz, raised, hmem]
    · intro hn
      exact absurd hmem hn
  · have hc : valid_sizes.contains size = false := by simpa using hmem
    constructor
    · rw [change_model_size]
      simp [hc, raised, hmem]
    · intro _
      rw [change_model_size]
      simp [hc, hmem]

/-- C9 witness: a rejected resize (`"huge"`) leaves the concrete state
    untouched and reports the error; a valid size is not rejected. -/
theorem change_model_size_spec_witness :
    (change_model_size (fun _ => none) (pys "huge")
        { model_size := pys "base", model := some (pys "whisper-base") }).1
      = { model_size := pys "base", model := some (pys "whisper-base") }
  ∧ raised (change_model_size (fun _ => none) (pys "huge")
        { model_size := pys "base", model := some (pys "whisper-base") }).2 = true
  ∧ raised (change_model_size (fun _ => none) (pys "tiny")
        { model_size := pys "base", model := some (pys "whisper-base") }).2 = false :=
  ⟨(change_model_size_spec (fun _ => none) (pys "huge")
      { model_size := pys "base", model := some (pys "whisper-base") }).2 (by decide),
   (change_model_size_spec (fun _ => none) (pys "huge")
      { model_size := pys "base", model := some (pys "whisper-base") }).1.mpr (by decide),
   by
     have h := (change_model_size_spec (fun _ => none) (pys "tiny")
       { model_size := pys "base", model := some (pys "whisper-base") }).1
     revert h
     decide⟩

end PrivaNote.Transcription
